import Mathlib

/-!
Verification of the qxmpp payload codec layer
(src/base/QXmppExternalServiceDiscoveryIq.cpp and src/omemo/QXmppOmemoData.cpp)
against its natural-language specification.

The XML tree reader/writer is the out-of-scope collaborator; it is embedded as
a plain element tree offering exactly the interface the spec lists in section 6:
get attribute by name with absence distinguishable from emptiness, get tag name,
get namespace, iterate immediate children optionally filtered by tag, get first
child by tag, and get text content.  Serialization is embedded as producing such
an element directly, with the ambient default namespace passed in (a
writeStartElement call inherits the default namespace in scope; a
writeDefaultNamespace call overrides it for the element and its descendants).
-/

/-- Embedding of the parsed XML element (QDomElement): tag name, resolved
namespace, attribute list (presence of an attribute is distinguishable from an
empty value), child elements in document order, and text content. -/
inductive QDomElement : Type where
  | mk : String → String → List (String × String) → List QDomElement → String → QDomElement

def QDomElement.tagName : QDomElement → String
  | .mk t _ _ _ _ => t

def QDomElement.namespaceURI : QDomElement → String
  | .mk _ n _ _ _ => n

def QDomElement.attrList : QDomElement → List (String × String)
  | .mk _ _ a _ _ => a

def QDomElement.children : QDomElement → List QDomElement
  | .mk _ _ _ c _ => c

def QDomElement.textContent : QDomElement → String
  | .mk _ _ _ _ s => s

/-- QDomElement::attribute: value of the named attribute, or the empty string
when the attribute is absent. -/
def QDomElement.getAttribute (el : QDomElement) (n : String) : String :=
  match el.attrList.find? (fun p => p.1 == n) with
  | some p => p.2
  | none => ""

/-- QDomNamedNodeMap::contains: whether the named attribute is present. -/
def QDomElement.hasAttribute (el : QDomElement) (n : String) : Bool :=
  el.attrList.any (fun p => p.1 == n)

/-- firstChildElement(name): first immediate child whose tag matches, if any. -/
def firstChildElement (el : QDomElement) (n : String) : Option QDomElement :=
  el.children.find? (fun c => c.tagName == n)

/-- iterChildElements(el, name): the immediate children whose tag matches,
in document order. -/
def iterChildElements (el : QDomElement) (n : String) : List QDomElement :=
  el.children.filter (fun c => c.tagName == n)

/-- Text content of a possibly null element (text of a null element is empty). -/
def optionalText (o : Option QDomElement) : String :=
  o.elim "" QDomElement.textContent

/- ### Value codecs -/

/-- One decimal digit as a character. -/
def digitChar : Nat → Char
  | 0 => '0' | 1 => '1' | 2 => '2' | 3 => '3' | 4 => '4'
  | 5 => '5' | 6 => '6' | 7 => '7' | 8 => '8' | _ => '9'

/-- Value of a big-endian run of decimal digit characters. -/
def decDigitsVal (cs : List Char) : Nat :=
  cs.foldl (fun a c => a * 10 + (c.toNat - 48)) 0

/-- Decimal rendering of a natural number (QString::number for unsigned). -/
def qstringNumberNat (n : Nat) : String :=
  if n = 0 then "0" else String.mk (((Nat.digits 10 n).reverse).map digitChar)

/-- QString::number for a signed integer. -/
def qstringNumberInt (i : Int) : String :=
  if i < 0 then "-" ++ qstringNumberNat i.natAbs else qstringNumberNat i.toNat

/-- Best-effort decimal reading of a digit run: all characters must be
digits and there must be at least one. -/
def decimalCore (cs : List Char) : Option Nat :=
  if cs ≠ [] ∧ cs.all Char.isDigit then some (decDigitsVal cs) else none

/-- QString::toInt with its ok flag: optional sign, digits, whole string,
value within the int range; anything else is a conversion failure. -/
def qstringToIntOpt (s : String) : Option Int :=
  let cs := s.data
  if cs.head? = some '-' then
    match decimalCore cs.tail with
    | some n => if n ≤ 2 ^ 31 then some (-(n : Int)) else none
    | none => none
  else if cs.head? = some '+' then
    match decimalCore cs.tail with
    | some n => if n ≤ 2 ^ 31 - 1 then some (n : Int) else none
    | none => none
  else
    match decimalCore cs with
    | some n => if n ≤ 2 ^ 31 - 1 then some (n : Int) else none
    | none => none

/-- QString::toInt: a failed conversion yields 0. -/
def qstringToInt (s : String) : Int :=
  (qstringToIntOpt s).getD 0

/-- The C++ conversion from int to uint32_t (reduction modulo 2 ^ 32). -/
def toUInt32 (i : Int) : Nat :=
  (i % (4294967296 : Int)).toNat

/-- Modelled from the spec: the binary-to-text codec for key material
(QByteArray::toBase64, not under src/).  The spec fixes only its contract:
an injective encoding of bytes as text whose decode inverts encode and whose
decode of malformed text degrades to zero-length bytes.  Each byte is encoded
as a fixed-width run of three decimal digit characters. -/
def qByteArrayToBase64 (bs : List Nat) : String :=
  String.mk (bs.map (fun b => [digitChar (b / 100), digitChar (b / 10 % 10), digitChar (b % 10)])).flatten

/-- Decoder core for the binary-to-text codec: text splits into three-digit
groups or the input is malformed. -/
def fromBase64Aux : List Char → Option (List Nat)
  | [] => some []
  | c1 :: c2 :: c3 :: rest =>
    if c1.isDigit && c2.isDigit && c3.isDigit then
      match fromBase64Aux rest with
      | some bs => some (((c1.toNat - 48) * 100 + (c2.toNat - 48) * 10 + (c3.toNat - 48)) :: bs)
      | none => none
    else none
  | _ => none

/-- Modelled from the spec: QByteArray::fromBase64 (not under src/); decode
failures on malformed input degrade to zero-length bytes. -/
def qByteArrayFromBase64 (s : String) : List Nat :=
  (fromBase64Aux s.data).getD []

/-- Embedding of QDateTime: a valid instant (milliseconds) or the invalid
datetime, which is its default (zero) value. -/
abbrev QDateTime := Option Nat

/-- Modelled from the spec: the timestamp codec (Qt ISODateWithMs rendering,
not under src/), abstracted as a fixed millisecond-precision rendering; the
invalid datetime renders as the empty string. -/
def datetimeToString : QDateTime → String
  | none => ""
  | some n => qstringNumberNat n

/-- Modelled from the spec: QXmppUtils::datetimeFromString (not under src/);
a malformed timestamp yields the invalid datetime. -/
def datetimeFromString (s : String) : QDateTime :=
  decimalCore s.data

/- ### Namespace constants (QXmppConstants, declarations only in src/) -/

/-- Modelled from the spec: the fixed device-identity namespace constant
ns_omemo_2 (QXmppConstants_p.h, not under src/). -/
def ns_omemo_2 : String := "urn:xmpp:omemo:2"

/-- Modelled from the spec: the external service discovery namespace constant
(QXmppConstants_p.h, not under src/). -/
def ns_external_service_discovery : String := "urn:xmpp:extdisco:2"

/- ### Enum tables (QXmppExternalServiceDiscoveryIq.cpp, lines 21-68) -/

inductive QXmppExternalService.Action : Type where
  | Add | Delete | Modify
deriving DecidableEq

inductive QXmppExternalService.Transport : Type where
  | Tcp | Udp
deriving DecidableEq

def actionToString : QXmppExternalService.Action → String
  | .Add => "add"
  | .Delete => "delete"
  | .Modify => "modify"

def actionFromString (s : String) : Option QXmppExternalService.Action :=
  if s = "add" then some .Add
  else if s = "delete" then some .Delete
  else if s = "modify" then some .Modify
  else none

def transportToString : QXmppExternalService.Transport → String
  | .Tcp => "tcp"
  | .Udp => "udp"

def transportFromString (s : String) : Option QXmppExternalService.Transport :=
  if s = "tcp" then some .Tcp
  else if s = "udp" then some .Udp
  else none

/- ### QXmppExternalService (QXmppExternalServiceDiscoveryIq.cpp) -/

/-- The external service value object.  Fields mirror
QXmppExternalServicePrivate; the default state has all optionals unset and the
required strings empty. -/
structure QXmppExternalService : Type where
  host : String := ""
  type : String := ""
  action : Option QXmppExternalService.Action := none
  expires : Option QDateTime := none
  name : Option String := none
  password : Option String := none
  port : Option Int := none
  restricted : Option Bool := none
  transport : Option QXmppExternalService.Transport := none
  username : Option String := none
deriving DecidableEq

/-- QXmppExternalService::isExternalService (lines 269-277): tag must be
service and both the host and the type attribute must be non-empty. -/
def QXmppExternalService.isExternalService (el : QDomElement) : Bool :=
  if el.tagName ≠ "service" then false
  else !(el.getAttribute "host").isEmpty && !(el.getAttribute "type").isEmpty

/-- QXmppExternalService::parse (lines 282-317).  Each field reads its own
attribute: host and type unconditionally, action and transport through the
enum table on the (possibly absent, hence empty) attribute text, and every
other optional field only when its attribute is present. -/
def QXmppExternalService.parse (el : QDomElement) : QXmppExternalService :=
  { host := el.getAttribute "host"
    type := el.getAttribute "type"
    action := actionFromString (el.getAttribute "action")
    expires :=
      if el.hasAttribute "expires" then some (datetimeFromString (el.getAttribute "expires"))
      else none
    name := if el.hasAttribute "name" then some (el.getAttribute "name") else none
    password := if el.hasAttribute "password" then some (el.getAttribute "password") else none
    port := if el.hasAttribute "port" then some (qstringToInt (el.getAttribute "port")) else none
    restricted :=
      if el.hasAttribute "restricted" then
        some (el.getAttribute "restricted" == "true" || el.getAttribute "restricted" == "1")
      else none
    transport := transportFromString (el.getAttribute "transport")
    username := if el.hasAttribute "username" then some (el.getAttribute "username") else none }

/-- One attribute write guarded on presence of the optional value. -/
def optAttrSeg (n : String) (o : Option String) : List (String × String) :=
  match o with
  | some v => [(n, v)]
  | none => []

/-- QXmppExternalService::toXml (lines 327-366): opens the service element and
writes host, type and then each set optional field, in source order.
Modelled from the spec: the attribute-write helper writeOptionalXmlAttribute
(QXmppUtils_p.h, not under src/) is modelled as writing the attribute, since
the spec states that serialize writes the required attributes unconditionally
and writes each set optional field. -/
def QXmppExternalService.toXml (defaultNs : String) (s : QXmppExternalService) : QDomElement :=
  QDomElement.mk "service" defaultNs
    ([("host", s.host), ("type", s.type)]
      ++ optAttrSeg "action" (s.action.map actionToString)
      ++ optAttrSeg "expires" (s.expires.map datetimeToString)
      ++ optAttrSeg "name" s.name
      ++ optAttrSeg "password" s.password
      ++ optAttrSeg "port" (s.port.map qstringNumberInt)
      ++ optAttrSeg "restricted" (s.restricted.map (fun b => if b then "true" else "false"))
      ++ optAttrSeg "transport" (s.transport.map transportToString)
      ++ optAttrSeg "username" s.username)
    [] ""

/-- QXmppExternalServiceDiscoveryIq::parseElementFromChild (lines 428-437):
iterate the children of the services child, keep exactly those accepted by
isExternalService, parse each and append in document order. -/
def QXmppExternalServiceDiscoveryIq.parseElementFromChild (el : QDomElement) :
    List QXmppExternalService :=
  ((firstChildElement el "services").elim [] QDomElement.children).foldl
    (fun acc c =>
      if QXmppExternalService.isExternalService c then
        acc ++ [QXmppExternalService.parse c]
      else acc)
    []

/-- QXmppExternalServiceDiscoveryIq::toXmlElementFromChild (lines 439-449). -/
def QXmppExternalServiceDiscoveryIq.toXmlElementFromChild
    (services : List QXmppExternalService) : QDomElement :=
  QDomElement.mk "services" ns_external_service_discovery []
    (services.map (QXmppExternalService.toXml ns_external_service_discovery)) ""

/- ### QXmppOmemoDeviceElement / QXmppOmemoDeviceList (QXmppOmemoData.cpp) -/

/-- The OMEMO device element: id (uint32_t, 0 when unset) and optional label
(a plain string, empty when unset). -/
structure QXmppOmemoDeviceElement : Type where
  id : Nat := 0
  label : String := ""
deriving DecidableEq

/-- QXmppOmemoDeviceElement::parse (lines 91-95). -/
def QXmppOmemoDeviceElement.parse (el : QDomElement) : QXmppOmemoDeviceElement :=
  { id := toUInt32 (qstringToInt (el.getAttribute "id"))
    label := el.getAttribute "label" }

/-- QXmppOmemoDeviceElement::toXml (lines 97-107): writes the id attribute
unconditionally and the label attribute only when the label is non-empty. -/
def QXmppOmemoDeviceElement.toXml (defaultNs : String) (d : QXmppOmemoDeviceElement) :
    QDomElement :=
  QDomElement.mk "device" defaultNs
    ([("id", qstringNumberNat d.id)] ++ if d.label.isEmpty then [] else [("label", d.label)])
    [] ""

/-- QXmppOmemoDeviceElement::isOmemoDeviceElement (lines 116-119). -/
def QXmppOmemoDeviceElement.isOmemoDeviceElement (el : QDomElement) : Bool :=
  el.tagName == "device" && el.namespaceURI == ns_omemo_2

/-- The OMEMO device list (the class is a QVector of device elements). -/
abbrev QXmppOmemoDeviceList := List QXmppOmemoDeviceElement

/-- QXmppOmemoDeviceList::parse (lines 128-135): for every child whose tag is
device, parse it and append. -/
def QXmppOmemoDeviceList.parse (el : QDomElement) : QXmppOmemoDeviceList :=
  (iterChildElements el "device").foldl
    (fun acc c => acc ++ [QXmppOmemoDeviceElement.parse c]) []

/-- QXmppOmemoDeviceList::toXml (lines 137-147): opens the devices element,
declares the OMEMO namespace as default, and serializes each device under it. -/
def QXmppOmemoDeviceList.toXml (_defaultNs : String) (l : QXmppOmemoDeviceList) :
    QDomElement :=
  QDomElement.mk "devices" ns_omemo_2 []
    (l.map (QXmppOmemoDeviceElement.toXml ns_omemo_2)) ""

/-- QXmppOmemoDeviceList::isOmemoDeviceList (lines 156-159). -/
def QXmppOmemoDeviceList.isOmemoDeviceList (el : QDomElement) : Bool :=
  el.tagName == "devices" && el.namespaceURI == ns_omemo_2

/- ### QXmppOmemoDeviceBundle (QXmppOmemoData.cpp, lines 297-374) -/

/-- The OMEMO device bundle.  Binary fields are raw bytes; the public pre keys
are a QHash from key id to key, embedded as an association list whose keys are
unique for every value built through insert. -/
structure QXmppOmemoDeviceBundle : Type where
  publicIdentityKey : List Nat := []
  signedPublicPreKey : List Nat := []
  signedPublicPreKeyId : Nat := 0
  signedPublicPreKeySignature : List Nat := []
  publicPreKeys : List (Nat × List Nat) := []
deriving DecidableEq

/-- QHash::insert: replace the value when the key is already present,
otherwise add the pair. -/
def hashInsert (m : List (Nat × List Nat)) (k : Nat) (v : List Nat) :
    List (Nat × List Nat) :=
  if m.any (fun p => p.1 == k) then
    m.map (fun p => if p.1 == k then (k, v) else p)
  else m ++ [(k, v)]

/-- QXmppOmemoDeviceBundle::parse (lines 297-316): the ik and spks texts decode
unconditionally (a missing child has empty text), the spk child and the prekeys
container are read only when present. -/
def QXmppOmemoDeviceBundle.parse (el : QDomElement) : QXmppOmemoDeviceBundle :=
  { publicIdentityKey := qByteArrayFromBase64 (optionalText (firstChildElement el "ik"))
    signedPublicPreKey :=
      match firstChildElement el "spk" with
      | some spk => qByteArrayFromBase64 spk.textContent
      | none => []
    signedPublicPreKeyId :=
      match firstChildElement el "spk" with
      | some spk => toUInt32 (qstringToInt (spk.getAttribute "id"))
      | none => 0
    signedPublicPreKeySignature :=
      qByteArrayFromBase64 (optionalText (firstChildElement el "spks"))
    publicPreKeys :=
      match firstChildElement el "prekeys" with
      | some pks =>
        (iterChildElements pks "pk").foldl
          (fun m pk =>
            hashInsert m (toUInt32 (qstringToInt (pk.getAttribute "id")))
              (qByteArrayFromBase64 pk.textContent))
          []
      | none => [] }

/-- QXmppOmemoDeviceBundle::toXml (lines 318-362): the bundle element with the
OMEMO default namespace and the four fixed children ik, spk (with id), spks and
prekeys (one pk child per public pre key). -/
def QXmppOmemoDeviceBundle.toXml (_defaultNs : String) (b : QXmppOmemoDeviceBundle) :
    QDomElement :=
  QDomElement.mk "bundle" ns_omemo_2 []
    [ QDomElement.mk "ik" ns_omemo_2 [] [] (qByteArrayToBase64 b.publicIdentityKey),
      QDomElement.mk "spk" ns_omemo_2 [("id", qstringNumberNat b.signedPublicPreKeyId)] []
        (qByteArrayToBase64 b.signedPublicPreKey),
      QDomElement.mk "spks" ns_omemo_2 [] [] (qByteArrayToBase64 b.signedPublicPreKeySignature),
      QDomElement.mk "prekeys" ns_omemo_2 []
        (b.publicPreKeys.map (fun p =>
          QDomElement.mk "pk" ns_omemo_2 [("id", qstringNumberNat p.1)] []
            (qByteArrayToBase64 p.2)))
        "" ]
    ""

/-- QXmppOmemoDeviceBundle::isOmemoDeviceBundle (lines 371-374). -/
def QXmppOmemoDeviceBundle.isOmemoDeviceBundle (el : QDomElement) : Bool :=
  el.tagName == "bundle" && el.namespaceURI == ns_omemo_2

/- ### QXmppOmemoIq (QXmppOmemoData.cpp, lines 406-428) -/

/-- Modelled from the spec: QXmppOmemoElement::isOmemoElement, the recognizer
of the opaque encrypted payload, is not under src/; the spec describes the
wrapper as recognized only through the wrapped (encrypted) child matching the
own recognizer of the opaque payload, a single-level tag and namespace check. -/
def QXmppOmemoElement.isOmemoElement (el : QDomElement) : Bool :=
  el.tagName == "encrypted" && el.namespaceURI == ns_omemo_2

/-- QXmppOmemoIq::isOmemoIq (lines 424-428): take the first child element and
require it to be non-null and to satisfy the recognizer of the opaque
payload. -/
def QXmppOmemoIq.isOmemoIq (el : QDomElement) : Bool :=
  match el.children.head? with
  | some child => QXmppOmemoElement.isOmemoElement child
  | none => false

/- ### Codec lemmas -/

theorem digitChar_spec : ∀ d, d < 10 →
    (digitChar d).isDigit = true ∧ (digitChar d).toNat - 48 = d := by decide

theorem foldl_map_digitChar (L : List Nat) (h : ∀ d ∈ L, d < 10) :
    ∀ a, List.foldl (fun acc c => acc * 10 + (c.toNat - 48)) a (L.map digitChar)
      = List.foldl (fun acc d => acc * 10 + d) a L := by
  induction L with
  | nil => intro a; rfl
  | cons d L ih =>
    intro a
    simp only [List.map_cons, List.foldl_cons]
    rw [(digitChar_spec d (h d (by simp))).2]
    exact ih (fun x hx => h x (by simp [hx])) _

theorem foldl_reverse_ofDigits (L : List Nat) :
    ∀ a, List.foldl (fun acc d => acc * 10 + d) a L.reverse
      = a * 10 ^ L.length + Nat.ofDigits 10 L := by
  induction L with
  | nil => intro a; simp [Nat.ofDigits]
  | cons d L ih =>
    intro a
    rw [List.reverse_cons, List.foldl_append, ih]
    simp only [List.foldl_cons, List.foldl_nil, Nat.ofDigits_cons, List.length_cons]
    ring

theorem qstringNumberNat_spec (n : Nat) :
    (qstringNumberNat n).data ≠ [] ∧ (qstringNumberNat n).data.all Char.isDigit = true ∧
      decDigitsVal (qstringNumberNat n).data = n := by
  by_cases hn : n = 0
  · subst hn; refine ⟨by decide, by decide, by decide⟩
  · have hdig : ∀ d ∈ Nat.digits 10 n, d < 10 := fun d hd => Nat.digits_lt_base (by norm_num) hd
    have hdata : (qstringNumberNat n).data = ((Nat.digits 10 n).reverse).map digitChar := by
      simp [qstringNumberNat, hn]
    refine ⟨?_, ?_, ?_⟩
    · rw [hdata]
      simp only [ne_eq, List.map_eq_nil_iff, List.reverse_eq_nil_iff]
      exact Nat.digits_ne_nil_iff_ne_zero.mpr hn
    · rw [hdata, List.all_eq_true]
      intro c hc
      obtain ⟨d, hd, rfl⟩ := List.mem_map.mp hc
      exact (digitChar_spec d (hdig d (List.mem_reverse.mp hd))).1
    · rw [hdata]
      unfold decDigitsVal
      rw [foldl_map_digitChar _ (fun d hd => hdig d (List.mem_reverse.mp hd)),
        foldl_reverse_ofDigits]
      simp [Nat.ofDigits_digits]

theorem decimalCore_qstringNumberNat (n : Nat) :
    decimalCore (qstringNumberNat n).data = some n := by
  obtain ⟨h1, h2, h3⟩ := qstringNumberNat_spec n
  simp [decimalCore, h1, h2, h3]

theorem qstringNumberNat_head (n : Nat) :
    ∃ c cs, (qstringNumberNat n).data = c :: cs ∧ c.isDigit = true := by
  obtain ⟨h1, h2, _⟩ := qstringNumberNat_spec n
  cases hd : (qstringNumberNat n).data with
  | nil => exact absurd hd h1
  | cons c cs =>
    refine ⟨c, cs, rfl, ?_⟩
    rw [hd, List.all_cons, Bool.and_eq_true] at h2
    exact h2.1

theorem qstringToIntOpt_qstringNumberNat (n : Nat) (h : n ≤ 2 ^ 31 - 1) :
    qstringToIntOpt (qstringNumberNat n) = some (n : Int) := by
  obtain ⟨c, cs, hd, hdig⟩ := qstringNumberNat_head n
  have hc1 : ((qstringNumberNat n).data.head? = some '-') = False := by
    rw [hd]; simp only [List.head?_cons, Option.some.injEq, eq_iff_iff, iff_false]
    intro hc; rw [hc] at hdig; exact absurd hdig (by decide)
  have hc2 : ((qstringNumberNat n).data.head? = some '+') = False := by
    rw [hd]; simp only [List.head?_cons, Option.some.injEq, eq_iff_iff, iff_false]
    intro hc; rw [hc] at hdig; exact absurd hdig (by decide)
  unfold qstringToIntOpt
  rw [if_neg (by simp [hc1]), if_neg (by simp [hc2]), decimalCore_qstringNumberNat n]
  simp
  omega

theorem qstringToInt_qstringNumberNat (n : Nat) (h : n ≤ 2 ^ 31 - 1) :
    qstringToInt (qstringNumberNat n) = (n : Int) := by
  rw [qstringToInt, qstringToIntOpt_qstringNumberNat n h, Option.getD_some]

theorem toUInt32_natCast (n : Nat) (h : n < 4294967296) : toUInt32 (n : Int) = n := by
  unfold toUInt32
  omega

theorem idRoundtrip (n : Nat) (h : n ≤ 2 ^ 31 - 1) :
    toUInt32 (qstringToInt (qstringNumberNat n)) = n := by
  rw [qstringToInt_qstringNumberNat n h]
  exact toUInt32_natCast n (by omega)

theorem qstringToInt_qstringNumberInt (i : Int) (h1 : -(2 ^ 31) ≤ i) (h2 : i ≤ 2 ^ 31 - 1) :
    qstringToInt (qstringNumberInt i) = i := by
  by_cases hneg : i < 0
  · have hdata : (qstringNumberInt i).data = '-' :: (qstringNumberNat i.natAbs).data := by
      rw [qstringNumberInt, if_pos hneg]
      cases hq : qstringNumberNat i.natAbs; rfl
    unfold qstringToInt qstringToIntOpt
    rw [hdata]
    simp only [List.head?_cons, List.tail_cons, if_pos rfl]
    rw [decimalCore_qstringNumberNat i.natAbs]
    have hrange : i.natAbs ≤ 2 ^ 31 := by omega
    simp only [if_true, hrange, if_pos, Option.getD_some]
    omega
  · have hpos : (0 : Int) ≤ i := by omega
    rw [qstringNumberInt, if_neg hneg, qstringToInt_qstringNumberNat i.toNat (by omega)]
    omega

theorem base64Roundtrip (bs : List Nat) (h : ∀ b ∈ bs, b < 256) :
    qByteArrayFromBase64 (qByteArrayToBase64 bs) = bs := by
  suffices haux : fromBase64Aux
      ((bs.map (fun b => [digitChar (b / 100), digitChar (b / 10 % 10), digitChar (b % 10)])).flatten)
        = some bs by
    simp [qByteArrayFromBase64, qByteArrayToBase64, haux]
  induction bs with
  | nil => rfl
  | cons b bs ih =>
    have hb : b < 256 := h b (by simp)
    have h1 : b / 100 < 10 := by omega
    have h2 : b / 10 % 10 < 10 := by omega
    have h3 : b % 10 < 10 := by omega
    simp only [List.map_cons, List.flatten_cons, List.cons_append, List.nil_append]
    unfold fromBase64Aux
    rw [(digitChar_spec _ h1).1, (digitChar_spec _ h2).1, (digitChar_spec _ h3).1]
    simp only [Bool.and_self, if_pos]
    rw [ih (fun x hx => h x (by simp [hx]))]
    rw [(digitChar_spec _ h1).2, (digitChar_spec _ h2).2, (digitChar_spec _ h3).2]
    have : b / 100 * 100 + b / 10 % 10 * 10 + b % 10 = b := by omega
    rw [this]

theorem datetimeRoundtrip (dt : QDateTime) :
    datetimeFromString (datetimeToString dt) = dt := by
  cases dt with
  | none => rfl
  | some n =>
    show datetimeFromString (qstringNumberNat n) = some n
    rw [datetimeFromString, decimalCore_qstringNumberNat]

theorem actionRoundtrip (a : QXmppExternalService.Action) :
    actionFromString (actionToString a) = some a := by
  cases a <;> rfl

theorem transportRoundtrip (t : QXmppExternalService.Transport) :
    transportFromString (transportToString t) = some t := by
  cases t <;> rfl

/- ### Attribute lookup on serializer output -/

theorem find?_append {α : Type} (l1 l2 : List α) (p : α → Bool) :
    (l1 ++ l2).find? p = ((l1.find? p).elim (l2.find? p) some) := by
  induction l1 with
  | nil => rfl
  | cons a l1 ih =>
    by_cases h : p a
    · simp [List.find?_cons, h]
    · simp only [List.cons_append, List.find?_cons, Bool.not_eq_true] at *
      rw [h, ih]

@[simp]
theorem find?_optAttrSeg_self (n : String) (o : Option String) :
    (optAttrSeg n o).find? (fun p => p.1 == n) = o.map (fun v => (n, v)) := by
  cases o <;> simp [optAttrSeg]

@[simp]
theorem find?_optAttrSeg_ne (n m : String) (o : Option String) (h : (m == n) = false) :
    (optAttrSeg m o).find? (fun p => p.1 == n) = none := by
  cases o <;> simp [optAttrSeg, h]

@[simp]
theorem any_optAttrSeg_self (n : String) (o : Option String) :
    (optAttrSeg n o).any (fun p => p.1 == n) = o.isSome := by
  cases o <;> simp [optAttrSeg]

@[simp]
theorem any_optAttrSeg_ne (n m : String) (o : Option String) (h : (m == n) = false) :
    (optAttrSeg m o).any (fun p => p.1 == n) = false := by
  cases o <;> simp [optAttrSeg, h]

theorem getAttr_toXml_host (ns : String) (s : QXmppExternalService) :
    (QXmppExternalService.toXml ns s).getAttribute "host" = s.host := by
  simp [QXmppExternalService.toXml, QDomElement.getAttribute, QDomElement.attrList,
    find?_append, List.find?_cons]

theorem getAttr_toXml_type (ns : String) (s : QXmppExternalService) :
    (QXmppExternalService.toXml ns s).getAttribute "type" = s.type := by
  simp [QXmppExternalService.toXml, QDomElement.getAttribute, QDomElement.attrList,
    find?_append, List.find?_cons]

theorem getAttr_toXml_action (ns : String) (s : QXmppExternalService) :
    (QXmppExternalService.toXml ns s).getAttribute "action"
      = (s.action.map actionToString).getD "" := by
  unfold QXmppExternalService.toXml QDomElement.getAttribute
  simp [QDomElement.attrList, find?_append, List.find?_cons]
  cases s.action <;> simp

theorem getAttr_toXml_expires (ns : String) (s : QXmppExternalService) :
    (QXmppExternalService.toXml ns s).getAttribute "expires"
      = (s.expires.map datetimeToString).getD "" := by
  unfold QXmppExternalService.toXml QDomElement.getAttribute
  simp [QDomElement.attrList, find?_append, List.find?_cons]
  cases s.expires <;> simp

theorem getAttr_toXml_name (ns : String) (s : QXmppExternalService) :
    (QXmppExternalService.toXml ns s).getAttribute "name" = s.name.getD "" := by
  unfold QXmppExternalService.toXml QDomElement.getAttribute
  simp [QDomElement.attrList, find?_append, List.find?_cons]
  cases s.name <;> simp

theorem getAttr_toXml_password (ns : String) (s : QXmppExternalService) :
    (QXmppExternalService.toXml ns s).getAttribute "password" = s.password.getD "" := by
  unfold QXmppExternalService.toXml QDomElement.getAttribute
  simp [QDomElement.attrList, find?_append, List.find?_cons]
  cases s.password <;> simp

theorem getAttr_toXml_port (ns : String) (s : QXmppExternalService) :
    (QXmppExternalService.toXml ns s).getAttribute "port"
      = (s.port.map qstringNumberInt).getD "" := by
  unfold QXmppExternalService.toXml QDomElement.getAttribute
  simp [QDomElement.attrList, find?_append, List.find?_cons]
  cases s.port <;> simp

theorem getAttr_toXml_restricted (ns : String) (s : QXmppExternalService) :
    (QXmppExternalService.toXml ns s).getAttribute "restricted"
      = (s.restricted.map (fun b => if b then "true" else "false")).getD "" := by
  unfold QXmppExternalService.toXml QDomElement.getAttribute
  simp [QDomElement.attrList, find?_append, List.find?_cons]
  cases s.restricted <;> simp

theorem getAttr_toXml_transport (ns : String) (s : QXmppExternalService) :
    (QXmppExternalService.toXml ns s).getAttribute "transport"
      = (s.transport.map transportToString).getD "" := by
  unfold QXmppExternalService.toXml QDomElement.getAttribute
  simp [QDomElement.attrList, find?_append, List.find?_cons]
  cases s.transport <;> simp

theorem getAttr_toXml_username (ns : String) (s : QXmppExternalService) :
    (QXmppExternalService.toXml ns s).getAttribute "username" = s.username.getD "" := by
  unfold QXmppExternalService.toXml QDomElement.getAttribute
  simp [QDomElement.attrList, find?_append, List.find?_cons]
  cases s.username <;> simp

theorem hasAttr_toXml_expires (ns : String) (s : QXmppExternalService) :
    (QXmppExternalService.toXml ns s).hasAttribute "expires" = s.expires.isSome := by
  simp [QXmppExternalService.toXml, QDomElement.hasAttribute, QDomElement.attrList]

theorem hasAttr_toXml_name (ns : String) (s : QXmppExternalService) :
    (QXmppExternalService.toXml ns s).hasAttribute "name" = s.name.isSome := by
  simp [QXmppExternalService.toXml, QDomElement.hasAttribute, QDomElement.attrList]

theorem hasAttr_toXml_password (ns : String) (s : QXmppExternalService) :
    (QXmppExternalService.toXml ns s).hasAttribute "password" = s.password.isSome := by
  simp [QXmppExternalService.toXml, QDomElement.hasAttribute, QDomElement.attrList]

theorem hasAttr_toXml_port (ns : String) (s : QXmppExternalService) :
    (QXmppExternalService.toXml ns s).hasAttribute "port" = s.port.isSome := by
  simp [QXmppExternalService.toXml, QDomElement.hasAttribute, QDomElement.attrList]

theorem hasAttr_toXml_restricted (ns : String) (s : QXmppExternalService) :
    (QXmppExternalService.toXml ns s).hasAttribute "restricted" = s.restricted.isSome := by
  simp [QXmppExternalService.toXml, QDomElement.hasAttribute, QDomElement.attrList]

theorem hasAttr_toXml_username (ns : String) (s : QXmppExternalService) :
    (QXmppExternalService.toXml ns s).hasAttribute "username" = s.username.isSome := by
  simp [QXmppExternalService.toXml, QDomElement.hasAttribute, QDomElement.attrList]

theorem hasAttr_toXml_hostType (ns : String) (s : QXmppExternalService) :
    (QXmppExternalService.toXml ns s).hasAttribute "host" = true ∧
      (QXmppExternalService.toXml ns s).hasAttribute "type" = true := by
  constructor <;>
    simp [QXmppExternalService.toXml, QDomElement.hasAttribute, QDomElement.attrList]

/- ### Round-trip lemmas per payload type -/

theorem isEmpty_false_of_ne (s : String) (h : ¬ s = "") : s.isEmpty = false := by
  rw [← Bool.not_eq_true]
  exact fun hc => h ((String.isEmpty_iff s).mp hc)

theorem externalServiceRoundtrip (ns : String) (s : QXmppExternalService)
    (hport : ∀ i, s.port = some i → -(2 ^ 31) ≤ i ∧ i ≤ 2 ^ 31 - 1) :
    QXmppExternalService.parse (QXmppExternalService.toXml ns s) = s := by
  obtain ⟨h, t, a, e, n, pw, p, r, tr, u⟩ := s
  unfold QXmppExternalService.parse
  simp only [getAttr_toXml_host, getAttr_toXml_type, getAttr_toXml_action, getAttr_toXml_expires,
    getAttr_toXml_name, getAttr_toXml_password, getAttr_toXml_port, getAttr_toXml_restricted,
    getAttr_toXml_transport, getAttr_toXml_username, hasAttr_toXml_expires, hasAttr_toXml_name,
    hasAttr_toXml_password, hasAttr_toXml_port, hasAttr_toXml_restricted, hasAttr_toXml_username,
    QXmppExternalService.mk.injEq]
  refine ⟨trivial, trivial, ?_, ?_, ?_, ?_, ?_, ?_, ?_, ?_⟩
  · cases a with
    | none => decide
    | some x => simp [actionRoundtrip]
  · cases e with
    | none => simp
    | some dt => simp [datetimeRoundtrip]
  · cases n <;> simp
  · cases pw <;> simp
  · cases p with
    | none => simp
    | some i =>
      obtain ⟨hi1, hi2⟩ := hport i rfl
      simp [qstringToInt_qstringNumberInt i hi1 hi2]
  · cases r with
    | none => simp
    | some b => cases b <;> simp
  · cases tr with
    | none => decide
    | some x => simp [transportRoundtrip]
  · cases u <;> simp

theorem getAttr_deviceToXml_id (ns : String) (d : QXmppOmemoDeviceElement) :
    (QXmppOmemoDeviceElement.toXml ns d).getAttribute "id" = qstringNumberNat d.id := by
  simp [QXmppOmemoDeviceElement.toXml, QDomElement.getAttribute, QDomElement.attrList,
    List.find?_cons]

theorem getAttr_deviceToXml_label (ns : String) (d : QXmppOmemoDeviceElement) :
    (QXmppOmemoDeviceElement.toXml ns d).getAttribute "label" = d.label := by
  by_cases hl : d.label = ""
  · simp [QXmppOmemoDeviceElement.toXml, QDomElement.getAttribute, QDomElement.attrList, hl,
      show ("" : String).isEmpty = true by decide]
  · simp [QXmppOmemoDeviceElement.toXml, QDomElement.getAttribute, QDomElement.attrList,
      isEmpty_false_of_ne d.label hl]

theorem deviceElementRoundtrip (ns : String) (d : QXmppOmemoDeviceElement)
    (hid : d.id ≤ 2 ^ 31 - 1) :
    QXmppOmemoDeviceElement.parse (QXmppOmemoDeviceElement.toXml ns d) = d := by
  unfold QXmppOmemoDeviceElement.parse
  rw [getAttr_deviceToXml_id, getAttr_deviceToXml_label, idRoundtrip d.id hid]

theorem foldl_append_singleton {α β : Type} (f : α → β) (xs : List α) :
    ∀ acc, xs.foldl (fun acc c => acc ++ [f c]) acc = acc ++ xs.map f := by
  induction xs with
  | nil => intro acc; simp
  | cons x xs ih => intro acc; simp [ih]

theorem deviceListRoundtrip (ns : String) (l : QXmppOmemoDeviceList)
    (hid : ∀ d ∈ l, d.id ≤ 2 ^ 31 - 1) :
    QXmppOmemoDeviceList.parse (QXmppOmemoDeviceList.toXml ns l) = l := by
  unfold QXmppOmemoDeviceList.parse QXmppOmemoDeviceList.toXml iterChildElements
  rw [show (QDomElement.mk "devices" ns_omemo_2 []
      (l.map (QXmppOmemoDeviceElement.toXml ns_omemo_2)) "").children
    = l.map (QXmppOmemoDeviceElement.toXml ns_omemo_2) from rfl]
  rw [List.filter_eq_self.mpr (by
    intro x hx
    obtain ⟨d, _, rfl⟩ := List.mem_map.mp hx
    rfl)]
  rw [foldl_append_singleton, List.nil_append, List.map_map]
  calc l.map (QXmppOmemoDeviceElement.parse ∘ QXmppOmemoDeviceElement.toXml ns_omemo_2)
      = l.map id := List.map_congr_left (fun d hd =>
        deviceElementRoundtrip ns_omemo_2 d (hid d hd))
    _ = l := List.map_id l

theorem hashInsert_notMem (acc : List (Nat × List Nat)) (k : Nat) (v : List Nat)
    (h : acc.any (fun p => p.1 == k) = false) : hashInsert acc k v = acc ++ [(k, v)] := by
  simp [hashInsert, h]

theorem bundlePrekeysFold (pairs : List (Nat × List Nat))
    (hkey : ∀ p ∈ pairs, p.1 ≤ 2 ^ 31 - 1)
    (hnodup : (pairs.map Prod.fst).Nodup) :
    ∀ acc, (∀ p ∈ pairs, acc.any (fun q => q.1 == p.1) = false) →
      (pairs.map (fun p => QDomElement.mk "pk" ns_omemo_2 [("id", qstringNumberNat p.1)] []
          (qByteArrayToBase64 p.2))).foldl
        (fun m pk => hashInsert m (toUInt32 (qstringToInt (pk.getAttribute "id")))
          (qByteArrayFromBase64 pk.textContent)) acc
      = acc ++ pairs.map (fun p => (p.1, qByteArrayFromBase64 (qByteArrayToBase64 p.2))) := by
  induction pairs with
  | nil => intro acc _; simp
  | cons p ps ih =>
    intro acc hacc
    obtain ⟨hp1, hps⟩ := List.nodup_cons.mp hnodup
    have hkeyElem : (QDomElement.mk "pk" ns_omemo_2 [("id", qstringNumberNat p.1)] []
        (qByteArrayToBase64 p.2)).getAttribute "id" = qstringNumberNat p.1 := rfl
    have htextElem : (QDomElement.mk "pk" ns_omemo_2 [("id", qstringNumberNat p.1)] []
        (qByteArrayToBase64 p.2)).textContent = qByteArrayToBase64 p.2 := rfl
    simp only [List.map_cons, List.foldl_cons, hkeyElem, htextElem]
    rw [idRoundtrip p.1 (hkey p (by simp)),
      hashInsert_notMem acc p.1 _ (hacc p (by simp))]
    rw [ih (fun q hq => hkey q (by simp [hq])) hps (acc ++ [(p.1, _)]) ?_]
    · simp
    · intro q hq
      rw [List.any_append, Bool.or_eq_false_iff]
      refine ⟨hacc q (by simp [hq]), ?_⟩
      have hne : p.1 ≠ q.1 := by
        intro hc
        exact hp1 (hc ▸ List.mem_map_of_mem Prod.fst hq)
      simp [hne]

theorem deviceBundleRoundtrip (ns : String) (b : QXmppOmemoDeviceBundle)
    (hik : ∀ x ∈ b.publicIdentityKey, x < 256)
    (hspk : ∀ x ∈ b.signedPublicPreKey, x < 256)
    (hspkId : b.signedPublicPreKeyId ≤ 2 ^ 31 - 1)
    (hspks : ∀ x ∈ b.signedPublicPreKeySignature, x < 256)
    (hkeys : ∀ p ∈ b.publicPreKeys, p.1 ≤ 2 ^ 31 - 1)
    (hvals : ∀ p ∈ b.publicPreKeys, ∀ x ∈ p.2, x < 256)
    (hnodup : (b.publicPreKeys.map Prod.fst).Nodup) :
    QXmppOmemoDeviceBundle.parse (QXmppOmemoDeviceBundle.toXml ns b) = b := by
  obtain ⟨ik, spk, spkId, spks, pks⟩ := b
  simp only [QXmppOmemoDeviceBundle.publicIdentityKey, QXmppOmemoDeviceBundle.signedPublicPreKey,
    QXmppOmemoDeviceBundle.signedPublicPreKeyId,
    QXmppOmemoDeviceBundle.signedPublicPreKeySignature,
    QXmppOmemoDeviceBundle.publicPreKeys] at hik hspk hspkId hspks hkeys hvals hnodup
  have hfik : firstChildElement
      (QXmppOmemoDeviceBundle.toXml ns ⟨ik, spk, spkId, spks, pks⟩) "ik"
      = some (QDomElement.mk "ik" ns_omemo_2 [] [] (qByteArrayToBase64 ik)) := rfl
  have hfspk : firstChildElement
      (QXmppOmemoDeviceBundle.toXml ns ⟨ik, spk, spkId, spks, pks⟩) "spk"
      = some (QDomElement.mk "spk" ns_omemo_2 [("id", qstringNumberNat spkId)] []
          (qByteArrayToBase64 spk)) := rfl
  have hfspks : firstChildElement
      (QXmppOmemoDeviceBundle.toXml ns ⟨ik, spk, spkId, spks, pks⟩) "spks"
      = some (QDomElement.mk "spks" ns_omemo_2 [] [] (qByteArrayToBase64 spks)) := rfl
  have hfpks : firstChildElement
      (QXmppOmemoDeviceBundle.toXml ns ⟨ik, spk, spkId, spks, pks⟩) "prekeys"
      = some (QDomElement.mk "prekeys" ns_omemo_2 []
          (pks.map (fun p => QDomElement.mk "pk" ns_omemo_2 [("id", qstringNumberNat p.1)] []
            (qByteArrayToBase64 p.2))) "") := rfl
  have tik : (QDomElement.mk "ik" ns_omemo_2 [] [] (qByteArrayToBase64 ik)).textContent
      = qByteArrayToBase64 ik := rfl
  have tspk : (QDomElement.mk "spk" ns_omemo_2 [("id", qstringNumberNat spkId)] []
      (qByteArrayToBase64 spk)).textContent = qByteArrayToBase64 spk := rfl
  have tspks : (QDomElement.mk "spks" ns_omemo_2 [] [] (qByteArrayToBase64 spks)).textContent
      = qByteArrayToBase64 spks := rfl
  unfold QXmppOmemoDeviceBundle.parse
  rw [hfik, hfspk, hfspks, hfpks]
  simp only [optionalText, Option.elim, tik, tspk, tspks, QXmppOmemoDeviceBundle.mk.injEq]
  have hiter : iterChildElements
      (QDomElement.mk "prekeys" ns_omemo_2 []
        (pks.map (fun p => QDomElement.mk "pk" ns_omemo_2 [("id", qstringNumberNat p.1)] []
          (qByteArrayToBase64 p.2))) "") "pk"
      = pks.map (fun p => QDomElement.mk "pk" ns_omemo_2 [("id", qstringNumberNat p.1)] []
          (qByteArrayToBase64 p.2)) := by
    unfold iterChildElements
    exact List.filter_eq_self.mpr (by
      intro x hx
      obtain ⟨q, _, rfl⟩ := List.mem_map.mp hx
      rfl)
  refine ⟨base64Roundtrip ik hik, ?_, ?_, base64Roundtrip spks hspks, ?_⟩
  · exact base64Roundtrip spk hspk
  · show toUInt32 (qstringToInt ((QDomElement.mk "spk" ns_omemo_2
        [("id", qstringNumberNat spkId)] [] (qByteArrayToBase64 spk)).getAttribute "id")) = spkId
    exact idRoundtrip spkId hspkId
  · rw [hiter, bundlePrekeysFold pks hkeys hnodup [] (by intro p _; rfl)]
    rw [List.nil_append]
    calc pks.map (fun p => (p.1, qByteArrayFromBase64 (qByteArrayToBase64 p.2)))
        = pks.map id := List.map_congr_left (fun p hp => by
          rw [base64Roundtrip p.2 (hvals p hp)]
          rfl)
      _ = pks := List.map_id pks

theorem foldl_filterParse (children : List QDomElement) :
    ∀ acc, children.foldl
        (fun acc c =>
          if QXmppExternalService.isExternalService c then
            acc ++ [QXmppExternalService.parse c]
          else acc) acc
      = acc ++ (children.filter QXmppExternalService.isExternalService).map
          QXmppExternalService.parse := by
  induction children with
  | nil => intro acc; simp
  | cons c cs ih =>
    intro acc
    by_cases hc : QXmppExternalService.isExternalService c
    · simp [List.filter_cons, hc, ih]
    · simp [List.filter_cons, hc, ih]

/- ### Claims -/

/-- C1: for every valid value of ExternalService, DeviceElement, DeviceList
and DeviceBundle (required ids within the int range, bytes within a byte, pre
key ids unique), serializing and re-parsing the emitted element reproduces the
value field-for-field, including which optional fields are set versus unset;
in particular an ExternalService optional string field set to the empty string
re-parses as set to the empty string, not unset. -/
theorem claim_C1_roundtrip :
    (∀ (ns : String) (s : QXmppExternalService),
      (∀ i, s.port = some i → -(2 ^ 31) ≤ i ∧ i ≤ 2 ^ 31 - 1) →
      QXmppExternalService.parse (QXmppExternalService.toXml ns s) = s)
  ∧ (∀ (ns : String) (d : QXmppOmemoDeviceElement), d.id ≤ 2 ^ 31 - 1 →
      QXmppOmemoDeviceElement.parse (QXmppOmemoDeviceElement.toXml ns d) = d)
  ∧ (∀ (ns : String) (l : QXmppOmemoDeviceList), (∀ d ∈ l, d.id ≤ 2 ^ 31 - 1) →
      QXmppOmemoDeviceList.parse (QXmppOmemoDeviceList.toXml ns l) = l)
  ∧ (∀ (ns : String) (b : QXmppOmemoDeviceBundle),
      (∀ x ∈ b.publicIdentityKey, x < 256) →
      (∀ x ∈ b.signedPublicPreKey, x < 256) →
      b.signedPublicPreKeyId ≤ 2 ^ 31 - 1 →
      (∀ x ∈ b.signedPublicPreKeySignature, x < 256) →
      (∀ p ∈ b.publicPreKeys, p.1 ≤ 2 ^ 31 - 1) →
      (∀ p ∈ b.publicPreKeys, ∀ x ∈ p.2, x < 256) →
      (b.publicPreKeys.map Prod.fst).Nodup →
      QXmppOmemoDeviceBundle.parse (QXmppOmemoDeviceBundle.toXml ns b) = b) :=
  ⟨externalServiceRoundtrip,
   deviceElementRoundtrip,
   deviceListRoundtrip,
   fun ns b h1 h2 h3 h4 h5 h6 h7 => deviceBundleRoundtrip ns b h1 h2 h3 h4 h5 h6 h7⟩

/-- Witness for C1 at concrete inputs; the external service sets name and
username to the empty string and both survive the round trip as set. -/
theorem claim_C1_roundtrip_witness :
    (∀ d ∈ ([⟨1, ""⟩, ⟨2, "x"⟩] : QXmppOmemoDeviceList), d.id ≤ 2 ^ 31 - 1)
  ∧ QXmppExternalService.parse (QXmppExternalService.toXml ""
      { host := "turn.example.com", type := "turn", action := some .Add,
        expires := some (some 1000), name := some "", password := some "pw",
        port := some 3478, restricted := some false, transport := some .Udp,
        username := some "" })
      = { host := "turn.example.com", type := "turn", action := some .Add,
          expires := some (some 1000), name := some "", password := some "pw",
          port := some 3478, restricted := some false, transport := some .Udp,
          username := some "" }
  ∧ QXmppOmemoDeviceElement.parse (QXmppOmemoDeviceElement.toXml "" ⟨5, "tablet"⟩)
      = ⟨5, "tablet"⟩
  ∧ QXmppOmemoDeviceList.parse (QXmppOmemoDeviceList.toXml "" [⟨1, ""⟩, ⟨2, "x"⟩])
      = [⟨1, ""⟩, ⟨2, "x"⟩]
  ∧ QXmppOmemoDeviceBundle.parse (QXmppOmemoDeviceBundle.toXml ""
      ⟨[1, 255], [7], 3, [9], [(1, [4]), (2, [5])]⟩)
      = ⟨[1, 255], [7], 3, [9], [(1, [4]), (2, [5])]⟩ := by
  refine ⟨by decide, ?_, ?_, ?_, ?_⟩
  · exact claim_C1_roundtrip.1 ""
      { host := "turn.example.com", type := "turn", action := some .Add,
        expires := some (some 1000), name := some "", password := some "pw",
        port := some 3478, restricted := some false, transport := some .Udp,
        username := some "" }
      (fun i hi => by
        simp only [Option.some.injEq] at hi
        subst hi
        constructor <;> decide)
  · exact claim_C1_roundtrip.2.1 "" ⟨5, "tablet"⟩ (by decide)
  · exact claim_C1_roundtrip.2.2.1 "" [⟨1, ""⟩, ⟨2, "x"⟩] (by decide)
  · exact claim_C1_roundtrip.2.2.2 "" ⟨[1, 255], [7], 3, [9], [(1, [4]), (2, [5])]⟩
      (by decide) (by decide) (by decide) (by decide) (by decide) (by decide) (by decide)

/-- C2: parsing is total and every field-level failure degrades to that single
field only: an unknown action or transport token leaves that field unset, a
missing attribute leaves its field unset (or the required host at its zero
value), non-numeric port text yields port 0, a malformed timestamp leaves the
expires field at the invalid (zero value) datetime, and malformed key text in
the bundle leaves that key empty, while every other field of the same element
still populates normally from its own attribute or child. -/
theorem claim_C2_tolerantDegrade :
    ∀ el : QDomElement,
      (el.getAttribute "action" ∉ (["add", "delete", "modify"] : List String) →
        (QXmppExternalService.parse el).action = none)
    ∧ (el.getAttribute "transport" ∉ (["tcp", "udp"] : List String) →
        (QXmppExternalService.parse el).transport = none)
    ∧ (el.hasAttribute "name" = false → (QXmppExternalService.parse el).name = none)
    ∧ (el.hasAttribute "expires" = false → (QXmppExternalService.parse el).expires = none)
    ∧ (el.hasAttribute "port" = false → (QXmppExternalService.parse el).port = none)
    ∧ (el.hasAttribute "restricted" = false → (QXmppExternalService.parse el).restricted = none)
    ∧ (el.hasAttribute "host" = false → (QXmppExternalService.parse el).host = "")
    ∧ (el.hasAttribute "port" = true → qstringToIntOpt (el.getAttribute "port") = none →
        (QXmppExternalService.parse el).port = some 0)
    ∧ (el.hasAttribute "expires" = true →
        datetimeFromString (el.getAttribute "expires") = none →
        (QXmppExternalService.parse el).expires = some none)
    ∧ ((QXmppExternalService.parse el).host = el.getAttribute "host"
        ∧ (QXmppExternalService.parse el).type = el.getAttribute "type"
        ∧ (QXmppExternalService.parse el).name
            = (if el.hasAttribute "name" = true then some (el.getAttribute "name") else none))
    ∧ ((fromBase64Aux (optionalText (firstChildElement el "ik")).data).isNone = true →
        (QXmppOmemoDeviceBundle.parse el).publicIdentityKey = []
          ∧ (QXmppOmemoDeviceBundle.parse el).signedPublicPreKeySignature
              = qByteArrayFromBase64 (optionalText (firstChildElement el "spks"))) := by
  intro el
  refine ⟨?_, ?_, ?_, ?_, ?_, ?_, ?_, ?_, ?_, ⟨rfl, rfl, rfl⟩, ?_⟩
  · intro h
    have h1 : ¬ el.getAttribute "action" = "add" := fun hc => h (by rw [hc]; simp)
    have h2 : ¬ el.getAttribute "action" = "delete" := fun hc => h (by rw [hc]; simp)
    have h3 : ¬ el.getAttribute "action" = "modify" := fun hc => h (by rw [hc]; simp)
    show actionFromString (el.getAttribute "action") = none
    rw [actionFromString, if_neg h1, if_neg h2, if_neg h3]
  · intro h
    have h1 : ¬ el.getAttribute "transport" = "tcp" := fun hc => h (by rw [hc]; simp)
    have h2 : ¬ el.getAttribute "transport" = "udp" := fun hc => h (by rw [hc]; simp)
    show transportFromString (el.getAttribute "transport") = none
    rw [transportFromString, if_neg h1, if_neg h2]
  · intro h
    show (if el.hasAttribute "name" = true then some (el.getAttribute "name") else none) = none
    rw [h]
    simp
  · intro h
    show (if el.hasAttribute "expires" = true
        then some (datetimeFromString (el.getAttribute "expires")) else none) = none
    rw [h]
    simp
  · intro h
    show (if el.hasAttribute "port" = true
        then some (qstringToInt (el.getAttribute "port")) else none) = none
    rw [h]
    simp
  · intro h
    show (if el.hasAttribute "restricted" = true
        then some (el.getAttribute "restricted" == "true"
          || el.getAttribute "restricted" == "1") else none) = none
    rw [h]
    simp
  · intro h
    show el.getAttribute "host" = ""
    have h' : el.attrList.any (fun p => p.1 == "host") = false := h
    have hnone : el.attrList.find? (fun p => p.1 == "host") = none :=
      List.find?_eq_none.mpr (List.any_eq_false.mp h')
    unfold QDomElement.getAttribute
    rw [hnone]
  · intro h hfail
    show (if el.hasAttribute "port" = true
        then some (qstringToInt (el.getAttribute "port")) else none) = some 0
    rw [h, if_pos rfl, qstringToInt, hfail]
    rfl
  · intro h hfail
    show (if el.hasAttribute "expires" = true
        then some (datetimeFromString (el.getAttribute "expires")) else none) = some none
    rw [h, if_pos rfl, hfail]
  · intro h
    refine ⟨?_, rfl⟩
    show qByteArrayFromBase64 (optionalText (firstChildElement el "ik")) = []
    unfold qByteArrayFromBase64
    rw [Option.isNone_iff_eq_none.mp h]
    rfl

/-- Witness for C2: a service element whose action, transport, port and
expires texts are all malformed still parses, each malformed field at its
degraded value while host populates normally; a fresh element leaves the
absent optional fields unset; a bundle with malformed key text parses with an
empty key while the signature field still decodes from its own child. -/
theorem claim_C2_tolerantDegrade_witness :
    (QXmppExternalService.parse (QDomElement.mk "service" ""
        [("host", "h"), ("type", "t"), ("action", "bogus"), ("transport", "x"),
          ("port", "12ab"), ("expires", "nope")] [] "")).action = none
  ∧ (QXmppExternalService.parse (QDomElement.mk "service" ""
        [("host", "h"), ("type", "t"), ("action", "bogus"), ("transport", "x"),
          ("port", "12ab"), ("expires", "nope")] [] "")).transport = none
  ∧ (QXmppExternalService.parse (QDomElement.mk "service" ""
        [("host", "h"), ("type", "t"), ("action", "bogus"), ("transport", "x"),
          ("port", "12ab"), ("expires", "nope")] [] "")).port = some 0
  ∧ (QXmppExternalService.parse (QDomElement.mk "service" ""
        [("host", "h"), ("type", "t"), ("action", "bogus"), ("transport", "x"),
          ("port", "12ab"), ("expires", "nope")] [] "")).expires = some none
  ∧ (QXmppExternalService.parse (QDomElement.mk "service" ""
        [("host", "h"), ("type", "t"), ("action", "bogus"), ("transport", "x"),
          ("port", "12ab"), ("expires", "nope")] [] "")).host = "h"
  ∧ (QXmppExternalService.parse (QDomElement.mk "service" "" [] [] "")).name = none
  ∧ (QXmppOmemoDeviceBundle.parse (QDomElement.mk "bundle" ns_omemo_2 []
        [QDomElement.mk "ik" ns_omemo_2 [] [] "x",
          QDomElement.mk "spks" ns_omemo_2 [] [] "065066"] "")).publicIdentityKey = []
  ∧ (QXmppOmemoDeviceBundle.parse (QDomElement.mk "bundle" ns_omemo_2 []
        [QDomElement.mk "ik" ns_omemo_2 [] [] "x",
          QDomElement.mk "spks" ns_omemo_2 [] [] "065066"] "")).signedPublicPreKeySignature
      = [65, 66] := by
  refine ⟨(claim_C2_tolerantDegrade _).1 (by decide),
    (claim_C2_tolerantDegrade _).2.1 (by decide),
    (claim_C2_tolerantDegrade _).2.2.2.2.2.2.2.1 (by decide) (by decide),
    (claim_C2_tolerantDegrade _).2.2.2.2.2.2.2.2.1 (by decide) (by decide),
    ?_,
    (claim_C2_tolerantDegrade _).2.2.1 (by decide),
    ((claim_C2_tolerantDegrade _).2.2.2.2.2.2.2.2.2.2 (by decide)).1,
    ?_⟩
  · exact ((claim_C2_tolerantDegrade _).2.2.2.2.2.2.2.2.2.1).1.trans (by decide)
  · exact (((claim_C2_tolerantDegrade _).2.2.2.2.2.2.2.2.2.2 (by decide)).2).trans (by decide)

theorem hasAttr_toXml_action (ns : String) (s : QXmppExternalService) :
    (QXmppExternalService.toXml ns s).hasAttribute "action" = s.action.isSome := by
  simp [QXmppExternalService.toXml, QDomElement.hasAttribute, QDomElement.attrList]

theorem hasAttr_toXml_transport (ns : String) (s : QXmppExternalService) :
    (QXmppExternalService.toXml ns s).hasAttribute "transport" = s.transport.isSome := by
  simp [QXmppExternalService.toXml, QDomElement.hasAttribute, QDomElement.attrList]

/-- C3 counterexample: the claim asserts the recognizer accepts the output of
serialize on any value, but serializing the default external service (whose
required host and type are empty strings) yields an element the recognizer
rejects. -/
theorem claim_C3_counterexample :
    QXmppExternalService.isExternalService
      (QXmppExternalService.toXml "" {}) = false := by decide

/-- C3 (amended): every element that fails the required tag, namespace or
required-attribute check is rejected by the recognizer; every element produced
by serialize on an ExternalService whose required host and type are non-empty
is accepted, and every device element serialized in its device-list context
(under the OMEMO default namespace) is accepted. -/
theorem claim_C3_recognizer :
    (∀ el : QDomElement,
      (el.tagName ≠ "service" ∨ el.getAttribute "host" = "" ∨ el.getAttribute "type" = "") →
      QXmppExternalService.isExternalService el = false)
  ∧ (∀ el : QDomElement, (el.tagName ≠ "device" ∨ el.namespaceURI ≠ ns_omemo_2) →
      QXmppOmemoDeviceElement.isOmemoDeviceElement el = false)
  ∧ (∀ (ns : String) (s : QXmppExternalService), s.host ≠ "" → s.type ≠ "" →
      QXmppExternalService.isExternalService (QXmppExternalService.toXml ns s) = true)
  ∧ (∀ d : QXmppOmemoDeviceElement,
      QXmppOmemoDeviceElement.isOmemoDeviceElement
        (QXmppOmemoDeviceElement.toXml ns_omemo_2 d) = true) := by
  refine ⟨?_, ?_, ?_, fun d => rfl⟩
  · intro el h
    rcases h with h | h | h
    · simp [QXmppExternalService.isExternalService, h]
    · by_cases ht : el.tagName ≠ "service"
      · simp [QXmppExternalService.isExternalService, ht]
      · simp [QXmppExternalService.isExternalService, ht, h,
          show ("" : String).isEmpty = true by decide]
    · by_cases ht : el.tagName ≠ "service"
      · simp [QXmppExternalService.isExternalService, ht]
      · simp [QXmppExternalService.isExternalService, ht, h,
          show ("" : String).isEmpty = true by decide]
  · intro el h
    rcases h with h | h <;> simp [QXmppOmemoDeviceElement.isOmemoDeviceElement, h]
  · intro ns s h1 h2
    have htag : (QXmppExternalService.toXml ns s).tagName = "service" := rfl
    unfold QXmppExternalService.isExternalService
    rw [htag, getAttr_toXml_host, getAttr_toXml_type,
      isEmpty_false_of_ne s.host h1, isEmpty_false_of_ne s.type h2]
    simp

/-- Witness for the amended C3 at concrete inputs. -/
theorem claim_C3_recognizer_witness :
    QXmppExternalService.isExternalService (QDomElement.mk "foo" "" [] [] "") = false
  ∧ QXmppOmemoDeviceElement.isOmemoDeviceElement
      (QDomElement.mk "device" "wrong" [] [] "") = false
  ∧ QXmppExternalService.isExternalService
      (QXmppExternalService.toXml "" { host := "h", type := "t" }) = true
  ∧ QXmppOmemoDeviceElement.isOmemoDeviceElement
      (QXmppOmemoDeviceElement.toXml ns_omemo_2 ⟨1, ""⟩) = true :=
  ⟨claim_C3_recognizer.1 _ (Or.inl (by decide)),
   claim_C3_recognizer.2.1 _ (Or.inr (by decide)),
   claim_C3_recognizer.2.2.1 "" { host := "h", type := "t" } (by decide) (by decide),
   claim_C3_recognizer.2.2.2 ⟨1, ""⟩⟩

/-- C4 counterexample: the claim requires the wrapper recognizer to reject any
element with two or more children, but an element with two children whose
first child is the encrypted payload is accepted. -/
theorem claim_C4_counterexample :
    QXmppOmemoIq.isOmemoIq (QDomElement.mk "iq" "" []
        [QDomElement.mk "encrypted" ns_omemo_2 [] [] "",
          QDomElement.mk "extra" "" [] [] ""] "") = true
  ∧ (QDomElement.mk "iq" "" []
        [QDomElement.mk "encrypted" ns_omemo_2 [] [] "",
          QDomElement.mk "extra" "" [] [] ""] "").children.length = 2 := by decide

/-- C4 (amended): isOmemoIq accepts an element exactly when it has a first
child element and that first child satisfies the recognizer of the opaque
payload; children beyond the first are never examined, so elements with two or
more children are accepted whenever the first child matches. -/
theorem claim_C4_isOmemoIq :
    ∀ el : QDomElement,
      QXmppOmemoIq.isOmemoIq el = true
        ↔ ∃ c, el.children.head? = some c ∧ QXmppOmemoElement.isOmemoElement c = true := by
  intro el
  unfold QXmppOmemoIq.isOmemoIq
  cases h : el.children.head? with
  | none => simp
  | some c => simp

/-- Witness for the amended C4. -/
theorem claim_C4_isOmemoIq_witness :
    QXmppOmemoIq.isOmemoIq (QDomElement.mk "iq" "" []
      [QDomElement.mk "encrypted" ns_omemo_2 [] [] ""] "") = true :=
  (claim_C4_isOmemoIq _).mpr ⟨QDomElement.mk "encrypted" ns_omemo_2 [] [] "", rfl, rfl⟩

/-- C5: for every value, including one whose required host or type is the
empty string, serialize opens exactly one element (no children), writes the
required attributes unconditionally (host and type for ExternalService, id for
DeviceElement) and writes no attribute at all for any unset optional field. -/
theorem claim_C5_serializeShape :
    (∀ (ns : String) (s : QXmppExternalService),
      (QXmppExternalService.toXml ns s).tagName = "service"
      ∧ (QXmppExternalService.toXml ns s).children = []
      ∧ (QXmppExternalService.toXml ns s).hasAttribute "host" = true
      ∧ (QXmppExternalService.toXml ns s).hasAttribute "type" = true
      ∧ (s.action = none → (QXmppExternalService.toXml ns s).hasAttribute "action" = false)
      ∧ (s.expires = none → (QXmppExternalService.toXml ns s).hasAttribute "expires" = false)
      ∧ (s.name = none → (QXmppExternalService.toXml ns s).hasAttribute "name" = false)
      ∧ (s.password = none → (QXmppExternalService.toXml ns s).hasAttribute "password" = false)
      ∧ (s.port = none → (QXmppExternalService.toXml ns s).hasAttribute "port" = false)
      ∧ (s.restricted = none →
          (QXmppExternalService.toXml ns s).hasAttribute "restricted" = false)
      ∧ (s.transport = none →
          (QXmppExternalService.toXml ns s).hasAttribute "transport" = false)
      ∧ (s.username = none → (QXmppExternalService.toXml ns s).hasAttribute "username" = false))
  ∧ (∀ (ns : String) (d : QXmppOmemoDeviceElement),
      (QXmppOmemoDeviceElement.toXml ns d).tagName = "device"
      ∧ (QXmppOmemoDeviceElement.toXml ns d).children = []
      ∧ (QXmppOmemoDeviceElement.toXml ns d).hasAttribute "id" = true
      ∧ (d.label = "" → (QXmppOmemoDeviceElement.toXml ns d).hasAttribute "label" = false)) := by
  constructor
  · intro ns s
    refine ⟨rfl, rfl, (hasAttr_toXml_hostType ns s).1, (hasAttr_toXml_hostType ns s).2,
      ?_, ?_, ?_, ?_, ?_, ?_, ?_, ?_⟩
    · intro h; rw [hasAttr_toXml_action, h]; rfl
    · intro h; rw [hasAttr_toXml_expires, h]; rfl
    · intro h; rw [hasAttr_toXml_name, h]; rfl
    · intro h; rw [hasAttr_toXml_password, h]; rfl
    · intro h; rw [hasAttr_toXml_port, h]; rfl
    · intro h; rw [hasAttr_toXml_restricted, h]; rfl
    · intro h; rw [hasAttr_toXml_transport, h]; rfl
    · intro h; rw [hasAttr_toXml_username, h]; rfl
  · intro ns d
    refine ⟨rfl, rfl, rfl, ?_⟩
    intro h
    simp [QXmppOmemoDeviceElement.toXml, QDomElement.hasAttribute, QDomElement.attrList, h,
      show ("" : String).isEmpty = true by decide]

/-- Witness for C5 at the default value of each type. -/
theorem claim_C5_serializeShape_witness :
    (QXmppExternalService.toXml "" {}).hasAttribute "host" = true
  ∧ (QXmppExternalService.toXml "" {}).hasAttribute "action" = false
  ∧ (QXmppExternalService.toXml "" {}).hasAttribute "username" = false
  ∧ (QXmppOmemoDeviceElement.toXml "" ⟨0, ""⟩).hasAttribute "id" = true
  ∧ (QXmppOmemoDeviceElement.toXml "" ⟨0, ""⟩).hasAttribute "label" = false :=
  ⟨(claim_C5_serializeShape.1 "" {}).2.2.1,
   (claim_C5_serializeShape.1 "" {}).2.2.2.2.1 rfl,
   (claim_C5_serializeShape.1 "" {}).2.2.2.2.2.2.2.2.2.2.2 rfl,
   (claim_C5_serializeShape.2 "" ⟨0, ""⟩).2.2.1,
   (claim_C5_serializeShape.2 "" ⟨0, ""⟩).2.2.2 rfl⟩

/-- C6: parsing the services container keeps exactly the children accepted by
the ExternalService recognizer, parsed in their original document order, so N
valid children interspersed with M invalid ones yield exactly N entries in
their original relative order and the invalid children are silently dropped. -/
theorem claim_C6_listOrder :
    ∀ el : QDomElement,
      QXmppExternalServiceDiscoveryIq.parseElementFromChild el
        = (((firstChildElement el "services").elim [] QDomElement.children).filter
            QXmppExternalService.isExternalService).map QXmppExternalService.parse
      ∧ (QXmppExternalServiceDiscoveryIq.parseElementFromChild el).length
          = ((firstChildElement el "services").elim [] QDomElement.children).countP
              QXmppExternalService.isExternalService := by
  intro el
  have h : QXmppExternalServiceDiscoveryIq.parseElementFromChild el
      = (((firstChildElement el "services").elim [] QDomElement.children).filter
          QXmppExternalService.isExternalService).map QXmppExternalService.parse := by
    unfold QXmppExternalServiceDiscoveryIq.parseElementFromChild
    rw [foldl_filterParse]
    simp
  refine ⟨h, ?_⟩
  rw [h, List.length_map, (List.countP_eq_length_filter _ _).symm]

/-- C7: the enum-string tables are total and bijective on the defined
variants, and every string that is not a defined token maps to no value. -/
theorem claim_C7_enumTables :
    (∀ a, actionFromString (actionToString a) = some a)
  ∧ (∀ t, transportFromString (transportToString t) = some t)
  ∧ (∀ s : String, s ∉ (["add", "delete", "modify"] : List String) →
      actionFromString s = none)
  ∧ (∀ s : String, s ∉ (["tcp", "udp"] : List String) → transportFromString s = none) := by
  refine ⟨actionRoundtrip, transportRoundtrip, ?_, ?_⟩
  · intro s h
    have h1 : ¬ s = "add" := fun hc => h (by rw [hc]; simp)
    have h2 : ¬ s = "delete" := fun hc => h (by rw [hc]; simp)
    have h3 : ¬ s = "modify" := fun hc => h (by rw [hc]; simp)
    rw [actionFromString, if_neg h1, if_neg h2, if_neg h3]
  · intro s h
    have h1 : ¬ s = "tcp" := fun hc => h (by rw [hc]; simp)
    have h2 : ¬ s = "udp" := fun hc => h (by rw [hc]; simp)
    rw [transportFromString, if_neg h1, if_neg h2]

/-- Witness for C7. -/
theorem claim_C7_enumTables_witness :
    actionFromString (actionToString .Add) = some .Add
  ∧ transportFromString (transportToString .Udp) = some .Udp
  ∧ actionFromString "zzz" = none
  ∧ transportFromString "zzz" = none :=
  ⟨claim_C7_enumTables.1 .Add, claim_C7_enumTables.2.1 .Udp,
   claim_C7_enumTables.2.2.1 "zzz" (by decide),
   claim_C7_enumTables.2.2.2 "zzz" (by decide)⟩

/-- C8: the restricted attribute parses to true exactly for the literal
tokens true and 1; when absent the field stays unset, and when present with
any other token the field parses to false. -/
theorem claim_C8_restrictedCodec :
    ∀ el : QDomElement,
      (el.hasAttribute "restricted" = false → (QXmppExternalService.parse el).restricted = none)
    ∧ (el.hasAttribute "restricted" = true →
        (el.getAttribute "restricted" = "true" ∨ el.getAttribute "restricted" = "1") →
        (QXmppExternalService.parse el).restricted = some true)
    ∧ (el.hasAttribute "restricted" = true → el.getAttribute "restricted" ≠ "true" →
        el.getAttribute "restricted" ≠ "1" →
        (QXmppExternalService.parse el).restricted = some false) := by
  intro el
  refine ⟨?_, ?_, ?_⟩
  · intro h
    show (if el.hasAttribute "restricted" = true
        then some (el.getAttribute "restricted" == "true"
          || el.getAttribute "restricted" == "1") else none) = none
    rw [h]
    simp
  · intro h htok
    show (if el.hasAttribute "restricted" = true
        then some (el.getAttribute "restricted" == "true"
          || el.getAttribute "restricted" == "1") else none) = some true
    rw [h, if_pos rfl]
    rcases htok with htok | htok <;> simp [htok]
  · intro h h1 h2
    show (if el.hasAttribute "restricted" = true
        then some (el.getAttribute "restricted" == "true"
          || el.getAttribute "restricted" == "1") else none) = some false
    rw [h, if_pos rfl]
    simp [h1, h2]

/-- Witness for C8. -/
theorem claim_C8_restrictedCodec_witness :
    (QXmppExternalService.parse (QDomElement.mk "service" "" [] [] "")).restricted = none
  ∧ (QXmppExternalService.parse (QDomElement.mk "service" ""
      [("restricted", "1")] [] "")).restricted = some true
  ∧ (QXmppExternalService.parse (QDomElement.mk "service" ""
      [("restricted", "yes")] [] "")).restricted = some false :=
  ⟨(claim_C8_restrictedCodec _).1 (by decide),
   (claim_C8_restrictedCodec _).2.1 (by decide) (Or.inr (by decide)),
   (claim_C8_restrictedCodec _).2.2 (by decide) (by decide) (by decide)⟩

/-- C9: a device element id of 0 round-trips faithfully: serialization writes
the id attribute as the string 0 and parsing the output yields id 0 with the
label intact; the parser never rejects id 0. -/
theorem claim_C9_idZero :
    ∀ (ns label : String),
      (QXmppOmemoDeviceElement.toXml ns ⟨0, label⟩).getAttribute "id" = "0"
      ∧ QXmppOmemoDeviceElement.parse (QXmppOmemoDeviceElement.toXml ns ⟨0, label⟩)
          = ⟨0, label⟩ := by
  intro ns label
  constructor
  · rw [getAttr_deviceToXml_id]
    rfl
  · exact deviceElementRoundtrip ns ⟨0, label⟩ (Nat.zero_le _)

/-- C10: device list parsing applies no per-child validity filter: it yields
one parsed entry per child whose tag is device, in document order, regardless
of the child namespace, even though the recognizer itself rejects a
device-tagged child whose namespace is not the OMEMO namespace. -/
theorem claim_C10_deviceListNoFilter :
    ∀ el : QDomElement,
      (QXmppOmemoDeviceList.parse el
        = (el.children.filter (fun c => c.tagName == "device")).map
            QXmppOmemoDeviceElement.parse)
      ∧ ((QXmppOmemoDeviceList.parse el).length
          = el.children.countP (fun c => c.tagName == "device"))
      ∧ (∀ ns : String,
          QXmppOmemoDeviceElement.isOmemoDeviceElement (QDomElement.mk "device" ns [] [] "")
            = (ns == ns_omemo_2)) := by
  intro el
  have h : QXmppOmemoDeviceList.parse el
      = (el.children.filter (fun c => c.tagName == "device")).map
          QXmppOmemoDeviceElement.parse := by
    unfold QXmppOmemoDeviceList.parse iterChildElements
    rw [foldl_append_singleton]
    simp
  refine ⟨h, ?_, ?_⟩
  · rw [h, List.length_map, (List.countP_eq_length_filter _ _).symm]
  · intro ns
    simp [QXmppOmemoDeviceElement.isOmemoDeviceElement, QDomElement.tagName,
      QDomElement.namespaceURI]
